import Mathlib

/-!
Verification development for the weather-api-go repository.

Shallow embedding of the cache-aside lookup/refresh protocol:
  * `internal/services/weather.go` — `GetWeather`, `GetTemperatureCharacterization`
  * `internal/services/nws_client.go` — `GetForecast`
  * `internal/repository/weather.go` — `GetFromCache`, `SaveToCache`, `IsCacheFresh`, `InitDB`
  * `main.go` — `initRedis` and the startup sequence

Modelling conventions:
  * Go `float64` values (coordinates, temperatures) are modelled as `ℚ`.
    All comparisons the code performs on them are exact order comparisons,
    which `ℚ` reproduces faithfully on the represented values.
  * Go `time.Time` is modelled as `ℤ` (seconds); `time.Hour` is `3600`.
  * The Redis store is an association list from string keys to entries;
    an entry is `Option WeatherCache`, where `none` stands for a stored
    blob that fails to deserialize (`json.Unmarshal` error).  A missing
    key, a store error and a nil client all produce a fast-layer miss,
    exactly as in the source.
  * The SQLite table `weather_cache` is a list of rows in insertion
    order; `INSERT` appends, the `DEFAULT CURRENT_TIMESTAMP` column is an
    explicit `dbNow : ℤ` parameter.  The query
    `... ORDER BY timestamp DESC LIMIT 1` picks the row of maximal
    timestamp, ties resolved to the most recently inserted row.
  * The two HTTP sub-fetches of the NWS client are collapsed into one
    oracle `Except String (List NWSPeriod)`: every early failure
    (network error, non-200 status, decode failure, missing forecast
    URL) is an `.error` with its message; the empty-period check of
    `GetForecast` itself is kept explicit.
  * `fmt.Sprintf("%.6f", x)` is modelled by `fmt6`, rounding the
    magnitude half away from zero at the sixth decimal (Go rounds half
    to even; the two agree except on exact half-way ties, which no
    statement below depends on).
-/

set_option autoImplicit false

deriving instance DecidableEq for Except

namespace WeatherApi

/-- Model of `models.WeatherCache` (internal/models/weather.go): cached weather data. -/
structure WeatherCache where
  latitude : ℚ
  longitude : ℚ
  forecast : String
  tempC : ℚ
  tempF : ℚ
  timestamp : ℤ
deriving Repr, DecidableEq

/-- Model of `models.WeatherResponse`: the API response for weather data. -/
structure WeatherResponse where
  forecast : String
  temperature : String
  temperatureC : ℚ
  temperatureF : ℚ
deriving Repr, DecidableEq

/-- One element of `properties.periods` of the NWS forecast payload. -/
structure NWSPeriod where
  shortForecast : String
  temperature : ℚ
  temperatureUnit : String
deriving Repr, DecidableEq

/-- Left-pad the decimal digits of a natural number to width 6
(the fractional part of a `%.6f` rendering). -/
def pad6 (n : ℕ) : String :=
  let s := toString n
  String.mk (List.replicate (6 - s.length) '0') ++ s

/-- Rendering `fmt.Sprintf("%.6f", q)`: sign, integer part, then exactly six
fractional digits of the magnitude rounded at the sixth decimal.
`m` is `⌊|q| * 10^6 + 1/2⌋`, computed on the reduced numerator and
denominator: `|q| * 10^6 + 1/2 = (2 * |num| * 10^6 + den) / (2 * den)`,
and the floor of a nonnegative fraction is natural division. -/
def fmt6 (q : ℚ) : String :=
  let m : ℕ := (2 * q.num.natAbs * 1000000 + q.den) / (2 * q.den)
  (if q.num < 0 then "-" else "") ++ toString (m / 1000000) ++ "." ++ pad6 (m % 1000000)

/-- The Redis key `fmt.Sprintf("weather:%.6f:%.6f", lat, lon)`. -/
def weatherKey (lat lon : ℚ) : String :=
  "weather:" ++ fmt6 lat ++ ":" ++ fmt6 lon

/-- The Redis store: keys to entries; a `none` entry is a blob that
fails to deserialize. -/
abbrev RedisState : Type := List (String × Option WeatherCache)

/-- Model of `rdb.Get(ctx, key).Result()`: `none` is a missed key (`redis.Nil` or
connection error), `some e` a stored entry. -/
def redisGet (st : RedisState) (k : String) : Option (Option WeatherCache) :=
  (st.find? (fun e => e.1 == k)).map (fun e => e.2)

/-- Model of `rdb.Set(ctx, key, data, 1*time.Hour)`: overwrite the key.  The 1-hour
physical TTL is enforced by the store itself and is not part of the
logical state. -/
def redisSet (st : RedisState) (k : String) (v : WeatherCache) : RedisState :=
  (k, some v) :: st.filter (fun e => !(e.1 == k))

/-- One row of the SQLite `weather_cache` table (schema in `InitDB`). -/
structure DbRow where
  id : ℕ
  latitude : ℚ
  longitude : ℚ
  forecast : String
  temp_c : ℚ
  temp_f : ℚ
  timestamp : ℤ
deriving Repr, DecidableEq

/-- Predicate for `WHERE latitude = ? AND longitude = ?`: exact equality on the raw
stored coordinates. -/
def rowMatches (lat lon : ℚ) (r : DbRow) : Bool :=
  decide (r.latitude = lat) && decide (r.longitude = lon)

/-- Scan of candidate rows keeping the one of maximal timestamp, a tie
going to the later (more recently inserted) row. -/
def pickLatest : Option DbRow → List DbRow → Option DbRow
  | acc, [] => acc
  | none, r :: rs => pickLatest (some r) rs
  | some b, r :: rs => pickLatest (some (if b.timestamp ≤ r.timestamp then r else b)) rs

/-- Model of `SELECT forecast, temp_c, temp_f, timestamp FROM weather_cache WHERE
latitude = ? AND longitude = ? ORDER BY timestamp DESC LIMIT 1`. -/
def dbQueryLatest (rows : List DbRow) (lat lon : ℚ) : Option DbRow :=
  pickLatest none (rows.filter (rowMatches lat lon))

/-- Model of `INSERT INTO weather_cache (latitude, longitude, forecast, temp_c,
temp_f) VALUES (?, ?, ?, ?, ?)`: append a row whose `timestamp` column
takes the `DEFAULT CURRENT_TIMESTAMP` value `dbNow`. -/
def dbInsert (rows : List DbRow) (w : WeatherCache) (dbNow : ℤ) : List DbRow :=
  rows ++ [⟨rows.length, w.latitude, w.longitude, w.forecast, w.tempC, w.tempF, dbNow⟩]

/-- The joint state of the two cache stores held by `WeatherRepository`. -/
structure CacheState where
  redis : RedisState
  dbRows : List DbRow
deriving Repr, DecidableEq

/-- The Redis branch of `GetFromCache` (repository/weather.go lines 32-42):
with a non-nil client, a present key and a clean unmarshal, the entry is
returned; every other case falls through. -/
def fastHit (hasRdb : Bool) (redis : RedisState) (lat lon : ℚ) : Option WeatherCache :=
  if hasRdb then
    match redisGet redis (weatherKey lat lon) with
    | some (some c) => some c
    | _ => none
  else none

/-- Model of `WeatherRepository.GetFromCache`: Redis first, then SQLite; the SQLite
row's coordinates are overwritten with the query arguments (lines 55-56),
while a Redis hit is returned exactly as unmarshalled. -/
def GetFromCache (hasRdb : Bool) (st : CacheState) (lat lon : ℚ) : Option WeatherCache :=
  match fastHit hasRdb st.redis lat lon with
  | some c => some c
  | none =>
    match dbQueryLatest st.dbRows lat lon with
    | some row =>
        some { latitude := lat, longitude := lon, forecast := row.forecast,
               tempC := row.temp_c, tempF := row.temp_f, timestamp := row.timestamp }
    | none => none

/-- Model of `WeatherRepository.SaveToCache`: set the Redis key (when a client
exists) and unconditionally insert a SQLite row; the insert omits the
timestamp column, so the row records `dbNow`, not `w.timestamp`. -/
def SaveToCache (hasRdb : Bool) (st : CacheState) (w : WeatherCache) (dbNow : ℤ) : CacheState :=
  { redis := if hasRdb then redisSet st.redis (weatherKey w.latitude w.longitude) w else st.redis,
    dbRows := dbInsert st.dbRows w dbNow }

/-- Model of `WeatherRepository.IsCacheFresh`: `time.Since(cache.Timestamp) < time.Hour`. -/
def IsCacheFresh (now : ℤ) (c : WeatherCache) : Bool :=
  decide (now - c.timestamp < 3600)

/-- Model of `WeatherService.GetTemperatureCharacterization` (services/weather.go). -/
def GetTemperatureCharacterization (tempC : ℚ) : String :=
  if tempC ≥ 30 then "hot"
  else if tempC ≤ 10 then "cold"
  else "moderate"

/-- The `models.WeatherResponse` literal built at each return site of
`GetWeather`: forecast text, classification of `TempC`, and both
temperature fields copied through. -/
def classifyResponse (c : WeatherCache) : WeatherResponse :=
  { forecast := c.forecast,
    temperature := GetTemperatureCharacterization c.tempC,
    temperatureC := c.tempC,
    temperatureF := c.tempF }

/-- Model of `NWSAPIClient.GetForecast` (services/nws_client.go): the chained HTTP
fetches are the `fetch` oracle; an empty period list is an error; the
first period yields the result, Celsius converted only for unit "F",
Fahrenheit field always the raw temperature, capture timestamp `now`. -/
def GetForecast (lat lon : ℚ) (fetch : Except String (List NWSPeriod)) (now : ℤ) :
    Except String WeatherCache :=
  match fetch with
  | .error e => .error e
  | .ok [] => .error ("no forecast periods found")
  | .ok (today :: _) =>
    let tempC : ℚ :=
      if today.temperatureUnit = "F" then (today.temperature - 32) * 5 / 9
      else today.temperature
    .ok { latitude := lat, longitude := lon, forecast := today.shortForecast,
          tempC := tempC, tempF := today.temperature, timestamp := now }

/-- Outcome of one `WeatherService.GetWeather` call: the returned value or
error, the cache state afterwards, and whether the NWS client was invoked. -/
structure GWResult where
  result : Except String WeatherResponse
  state : CacheState
  upstreamCalled : Bool

/-- Model of `WeatherService.GetWeather` (services/weather.go lines 33-69):
cache lookup, freshness check, upstream fetch, stale fallback,
best-effort write-back. -/
def GetWeather (hasRdb : Bool) (st : CacheState) (lat lon : ℚ) (now : ℤ)
    (fetch : Except String (List NWSPeriod)) (dbNow : ℤ) : GWResult :=
  match GetFromCache hasRdb st lat lon with
  | some cached =>
    if IsCacheFresh now cached then
      { result := .ok (classifyResponse cached), state := st, upstreamCalled := false }
    else
      match GetForecast lat lon fetch now with
      | .ok w =>
          { result := .ok (classifyResponse w), state := SaveToCache hasRdb st w dbNow,
            upstreamCalled := true }
      | .error _ =>
          { result := .ok (classifyResponse cached), state := st, upstreamCalled := true }
  | none =>
    match GetForecast lat lon fetch now with
    | .ok w =>
        { result := .ok (classifyResponse w), state := SaveToCache hasRdb st w dbNow,
          upstreamCalled := true }
    | .error e => { result := .error e, state := st, upstreamCalled := true }

/-- Model of `initRedis` (main.go): a failed ping yields a nil client (`false`),
otherwise a live client (`true`). -/
def initRedis (pingOk : Bool) : Bool := pingOk

/-- Result of running `main` up to the point where routes are registered. -/
inductive StartupOutcome where
  | started (hasRdb : Bool)
  | fatalExit (msg : String)
deriving Repr, DecidableEq

/-- Model of `main` (main.go lines 63-74): `InitDB` first — a failure is
`log.Fatalf` — then `initRedis`, whose failure only degrades the
repository to a nil Redis client. -/
def runMain (pingOk : Bool) (dbInit : Except String Unit) : StartupOutcome :=
  match dbInit with
  | .error e => .fatalExit ("Failed to initialize database: " ++ e)
  | .ok _ => .started (initRedis pingOk)

/-- Returns `true` exactly on the `.error` constructor. -/
def isErr {α : Type} (x : Except String α) : Bool :=
  match x with
  | .error _ => true
  | .ok _ => false

/-! Helper lemmas about the store models. -/

theorem pickLatest_mem : ∀ (rs : List DbRow) (acc : Option DbRow) (r : DbRow),
    pickLatest acc rs = some r → acc = some r ∨ r ∈ rs := by
  intro rs
  induction rs with
  | nil =>
    intro acc r h
    simp only [pickLatest] at h
    exact Or.inl h
  | cons x xs ih =>
    intro acc r h
    cases acc with
    | none =>
      simp only [pickLatest] at h
      rcases ih (some x) r h with h' | h'
      · exact Or.inr (by simp [Option.some_inj.mp h'])
      · exact Or.inr (List.mem_cons_of_mem _ h')
    | some b =>
      simp only [pickLatest] at h
      rcases ih (some (if b.timestamp ≤ x.timestamp then x else b)) r h with h' | h'
      · by_cases hbx : b.timestamp ≤ x.timestamp
        · simp only [hbx, if_true, Option.some_inj] at h'
          exact Or.inr (by simp [← h'])
        · simp only [hbx, if_false, Option.some_inj] at h'
          exact Or.inl (by simp [h'])
      · exact Or.inr (List.mem_cons_of_mem _ h')

theorem pickLatest_ge : ∀ (rs : List DbRow) (acc : Option DbRow) (r : DbRow),
    pickLatest acc rs = some r →
    (∀ x ∈ rs, x.timestamp ≤ r.timestamp) ∧
    (∀ b, acc = some b → b.timestamp ≤ r.timestamp) := by
  intro rs
  induction rs with
  | nil =>
    intro acc r h
    simp only [pickLatest] at h
    refine ⟨by simp, ?_⟩
    intro b hb
    rw [h] at hb
    simp [Option.some_inj.mp hb]
  | cons x xs ih =>
    intro acc r h
    cases acc with
    | none =>
      simp only [pickLatest] at h
      obtain ⟨h1, h2⟩ := ih (some x) r h
      refine ⟨?_, by simp⟩
      intro y hy
      rcases List.mem_cons.mp hy with hy | hy
      · exact hy ▸ h2 x rfl
      · exact h1 y hy
    | some b =>
      simp only [pickLatest] at h
      obtain ⟨h1, h2⟩ := ih (some (if b.timestamp ≤ x.timestamp then x else b)) r h
      have hstep : (if b.timestamp ≤ x.timestamp then x else b).timestamp ≤ r.timestamp :=
        h2 _ rfl
      have hx : x.timestamp ≤ r.timestamp := by
        by_cases hbx : b.timestamp ≤ x.timestamp
        · simpa [hbx] using hstep
        · exact le_trans (le_of_not_le hbx) (by simpa [hbx] using hstep)
      have hb : b.timestamp ≤ r.timestamp := by
        by_cases hbx : b.timestamp ≤ x.timestamp
        · exact le_trans hbx (by simpa [hbx] using hstep)
        · simpa [hbx] using hstep
      constructor
      · intro y hy
        rcases List.mem_cons.mp hy with hy | hy
        · exact hy ▸ hx
        · exact h1 y hy
      · intro b' hb'
        exact Option.some_inj.mp hb' ▸ hb

theorem pickLatest_append : ∀ (l : List DbRow) (acc : Option DbRow) (x : DbRow),
    pickLatest acc (l ++ [x]) =
      match pickLatest acc l with
      | none => some x
      | some b => some (if b.timestamp ≤ x.timestamp then x else b) := by
  intro l
  induction l with
  | nil =>
    intro acc x
    cases acc with
    | none => simp [pickLatest]
    | some b => simp [pickLatest]
  | cons y ys ih =>
    intro acc x
    cases acc with
    | none => simpa [pickLatest] using ih (some y) x
    | some b => simpa [pickLatest] using ih (some (if b.timestamp ≤ y.timestamp then y else b)) x

theorem dbQueryLatest_spec (rows : List DbRow) (lat lon : ℚ) (r : DbRow)
    (h : dbQueryLatest rows lat lon = some r) :
    r ∈ rows ∧ r.latitude = lat ∧ r.longitude = lon ∧
    ∀ r' ∈ rows, r'.latitude = lat → r'.longitude = lon → r'.timestamp ≤ r.timestamp := by
  have hmem := pickLatest_mem _ _ _ h
  simp only [false_or] at hmem
  have hmem' := List.mem_filter.mp (hmem.resolve_left (by simp))
  have hmatch : rowMatches lat lon r = true := hmem'.2
  have hge := (pickLatest_ge _ _ _ h).1
  simp only [rowMatches, Bool.and_eq_true, decide_eq_true_eq] at hmatch
  refine ⟨hmem'.1, hmatch.1, hmatch.2, ?_⟩
  intro r' hr' hlat hlon
  exact hge r' (List.mem_filter.mpr ⟨hr', by simp [rowMatches, hlat, hlon]⟩)

theorem dbQueryLatest_insert_self (rows : List DbRow) (w : WeatherCache) (dbNow : ℤ)
    (hle : ∀ r ∈ rows, r.timestamp ≤ dbNow) :
    dbQueryLatest (dbInsert rows w dbNow) w.latitude w.longitude =
      some ⟨rows.length, w.latitude, w.longitude, w.forecast, w.tempC, w.tempF, dbNow⟩ := by
  unfold dbQueryLatest dbInsert
  rw [List.filter_append]
  have hx : rowMatches w.latitude w.longitude
      ⟨rows.length, w.latitude, w.longitude, w.forecast, w.tempC, w.tempF, dbNow⟩ = true := by
    simp [rowMatches]
  simp only [List.filter_cons, hx, List.filter_nil, if_true]
  rw [pickLatest_append]
  cases hp : pickLatest none (rows.filter (rowMatches w.latitude w.longitude)) with
  | none => rfl
  | some b =>
    have hb := pickLatest_mem _ _ _ hp
    simp only [false_or] at hb
    have hbmem := (List.mem_filter.mp (hb.resolve_left (by simp))).1
    simp [hle b hbmem]

theorem redisGet_set_self (st : RedisState) (k : String) (v : WeatherCache) :
    redisGet (redisSet st k v) k = some (some v) := by
  simp [redisGet, redisSet, List.find?_cons_of_pos]

/-! Claims. -/

/-- C6: `GetTemperatureCharacterization` is a pure three-way function of the
Celsius temperature: `tempC ≥ 30.0` yields `"hot"`; otherwise `tempC ≤ 10.0`
yields `"cold"` (so the hot test is evaluated first); any other value yields
`"moderate"`.  In particular 30.0 is hot, 10.0 is cold, and 29.9 and 10.1 are
moderate, by exact comparison at both boundaries. -/
theorem C6_classifier_three_way :
    (∀ t : ℚ,
      (t ≥ 30 → GetTemperatureCharacterization t = "hot") ∧
      (¬ t ≥ 30 → t ≤ 10 → GetTemperatureCharacterization t = "cold") ∧
      (¬ t ≥ 30 → ¬ t ≤ 10 → GetTemperatureCharacterization t = "moderate")) ∧
    GetTemperatureCharacterization 30.0 = "hot" ∧
    GetTemperatureCharacterization 10.0 = "cold" ∧
    GetTemperatureCharacterization 29.9 = "moderate" ∧
    GetTemperatureCharacterization 10.1 = "moderate" := by
  refine ⟨?_, ?_, ?_, ?_, ?_⟩
  · intro t
    refine ⟨fun h => ?_, fun h1 h2 => ?_, fun h1 h2 => ?_⟩
    · rw [GetTemperatureCharacterization, if_pos h]
    · rw [GetTemperatureCharacterization, if_neg h1, if_pos h2]
    · rw [GetTemperatureCharacterization, if_neg h1, if_neg h2]
  · norm_num [GetTemperatureCharacterization]
  · norm_num [GetTemperatureCharacterization]
  · norm_num [GetTemperatureCharacterization]
  · norm_num [GetTemperatureCharacterization]

/-- Witness for C6 at the temperatures 35, 5 and 20. -/
theorem C6_classifier_three_way_witness :
    GetTemperatureCharacterization 35 = "hot" ∧
    GetTemperatureCharacterization 5 = "cold" ∧
    GetTemperatureCharacterization 20 = "moderate" :=
  ⟨(C6_classifier_three_way.1 35).1 (by norm_num),
   (C6_classifier_three_way.1 5).2.1 (by norm_num) (by norm_num),
   (C6_classifier_three_way.1 20).2.2 (by norm_num) (by norm_num)⟩

/-- C9: on a successful upstream fetch the Fahrenheit field of the result is
the provider's raw first-period temperature unchanged, whatever the unit
string; the Celsius conversion `(t - 32) * 5 / 9` is applied only when the
unit is exactly `"F"`, so for any other unit both `TempC` and `TempF` hold
the raw value. -/
theorem C9_fahrenheit_passthrough (lat lon : ℚ) (now : ℤ) (p : NWSPeriod)
    (rest : List NWSPeriod) :
    ∃ w, GetForecast lat lon (.ok (p :: rest)) now = .ok w ∧
      w.tempF = p.temperature ∧
      (p.temperatureUnit = "F" → w.tempC = (p.temperature - 32) * 5 / 9) ∧
      (p.temperatureUnit ≠ "F" → w.tempC = p.temperature ∧ w.tempF = p.temperature) := by
  refine ⟨{ latitude := lat, longitude := lon, forecast := p.shortForecast,
            tempC := if p.temperatureUnit = "F" then (p.temperature - 32) * 5 / 9
                     else p.temperature,
            tempF := p.temperature, timestamp := now }, rfl, rfl, ?_, ?_⟩
  · intro h
    simp [h]
  · intro h
    simp [h]

/-- Witness for C9: a period reported in unit "C" with raw temperature 50
passes 50 through to both temperature fields. -/
theorem C9_fahrenheit_passthrough_witness :
    ∃ w, GetForecast 1 2 (.ok [⟨"Sunny", 50, "C"⟩]) 0 = .ok w ∧
      w.tempC = 50 ∧ w.tempF = 50 := by
  obtain ⟨w, hw, hF, _, hC⟩ := C9_fahrenheit_passthrough 1 2 0 ⟨"Sunny", 50, "C"⟩ []
  exact ⟨w, hw, (hC (by decide)).1, hF⟩

/-- C1: `GetWeather` fails with an upstream error exactly when the upstream
fetch failed and `GetFromCache` found no row in either layer; the error it
then returns is the upstream's own; and whenever a cached row was found
(fresh or stale) but the upstream fetch failed, that row is returned,
classified, instead of failing. -/
theorem C1_upstream_error_iff_no_usable_data (hasRdb : Bool) (st : CacheState)
    (lat lon : ℚ) (now dbNow : ℤ) (fetch : Except String (List NWSPeriod)) :
    (∀ e, (GetWeather hasRdb st lat lon now fetch dbNow).result = .error e ↔
      (GetFromCache hasRdb st lat lon = none ∧
        GetForecast lat lon fetch now = .error e)) ∧
    (∀ c, GetFromCache hasRdb st lat lon = some c →
      isErr (GetForecast lat lon fetch now) = true →
      (GetWeather hasRdb st lat lon now fetch dbNow).result = .ok (classifyResponse c)) := by
  constructor
  · intro e
    cases hc : GetFromCache hasRdb st lat lon with
    | none =>
      cases hf : GetForecast lat lon fetch now with
      | ok w => simp [GetWeather, hc, hf]
      | error e' => simp [GetWeather, hc, hf]
    | some c =>
      by_cases hfresh : IsCacheFresh now c = true
      · simp [GetWeather, hc, hfresh]
      · cases hf : GetForecast lat lon fetch now with
        | ok w => simp [GetWeather, hc, hf, hfresh]
        | error e' => simp [GetWeather, hc, hf, hfresh]
  · intro c hc herr
    by_cases hfresh : IsCacheFresh now c = true
    · simp [GetWeather, hc, hfresh]
    · cases hf : GetForecast lat lon fetch now with
      | ok w => simp [isErr, hf] at herr
      | error e' => simp [GetWeather, hc, hf, hfresh]

/-- Witness for C1: with empty caches a failing upstream surfaces the error
"boom"; with a stale fast-cache row and the same failing upstream, the stale
row is returned, classified. -/
theorem C1_upstream_error_iff_no_usable_data_witness :
    (GetWeather true ⟨[], []⟩ 1 2 0 (.error ("boom")) 0).result = .error ("boom") ∧
    (GetWeather true ⟨[(weatherKey 1 2, some ⟨1, 2, "Old Sunny", 20, 68, 0⟩)], []⟩
        1 2 7200 (.error ("boom")) 7200).result =
      .ok (classifyResponse ⟨1, 2, "Old Sunny", 20, 68, 0⟩) := by
  constructor
  · exact ((C1_upstream_error_iff_no_usable_data true ⟨[], []⟩ 1 2 0 0
      (.error ("boom"))).1 "boom").mpr ⟨by decide, by decide⟩
  · exact (C1_upstream_error_iff_no_usable_data true
      ⟨[(weatherKey 1 2, some ⟨1, 2, "Old Sunny", 20, 68, 0⟩)], []⟩ 1 2 7200 7200
      (.error ("boom"))).2 ⟨1, 2, "Old Sunny", 20, 68, 0⟩ (by decide) (by decide)

/-- C2 counterexample: a fast-cache entry for (1, 2) with capture timestamp 0,
read at `now = 7200` (two hours later) with a succeeding upstream, is not
returned immediately: the upstream is consulted and its data returned, which
differs from the cached entry's classification. -/
theorem C2_counterexample :
    (GetWeather true ⟨[(weatherKey 1 2, some ⟨1, 2, "Old Sunny", 20, 68, 0⟩)], []⟩
        1 2 7200 (.ok [⟨"New Rain", 5, "C"⟩]) 7200).upstreamCalled = true ∧
    (GetWeather true ⟨[(weatherKey 1 2, some ⟨1, 2, "Old Sunny", 20, 68, 0⟩)], []⟩
        1 2 7200 (.ok [⟨"New Rain", 5, "C"⟩]) 7200).result =
      .ok ⟨"New Rain", "cold", 5, 5⟩ ∧
    (.ok ⟨"New Rain", "cold", 5, 5⟩ : Except String WeatherResponse) ≠
      .ok (classifyResponse ⟨1, 2, "Old Sunny", 20, 68, 0⟩) :=
  ⟨by decide, by decide, by decide⟩

/-- C2 amended: on a fast-cache hit the entry's stored timestamp IS re-checked
(`GetWeather` runs `IsCacheFresh` on every cache hit): the entry is returned
immediately, classified, without consulting the upstream and with the state
unchanged, exactly when `now - timestamp < 1 hour`; a hit whose timestamp is
an hour or more old is treated as stale and the upstream is consulted. -/
theorem C2_fast_hit_rechecked (st : CacheState) (lat lon : ℚ) (now dbNow : ℤ)
    (fetch : Except String (List NWSPeriod)) (c : WeatherCache)
    (hhit : redisGet st.redis (weatherKey lat lon) = some (some c)) :
    (IsCacheFresh now c = true →
      GetWeather true st lat lon now fetch dbNow =
        ⟨.ok (classifyResponse c), st, false⟩) ∧
    (IsCacheFresh now c = false →
      (GetWeather true st lat lon now fetch dbNow).upstreamCalled = true) := by
  have hc : GetFromCache true st lat lon = some c := by
    simp [GetFromCache, fastHit, hhit]
  constructor
  · intro hfresh
    simp [GetWeather, hc, hfresh]
  · intro hstale
    cases hf : GetForecast lat lon fetch now with
    | ok w => simp [GetWeather, hc, hstale, hf]
    | error e => simp [GetWeather, hc, hstale, hf]

/-- Witness for C2 amended: a fresh fast-cache hit is returned as-is with no
upstream call; the same entry two hours later triggers the upstream. -/
theorem C2_fast_hit_rechecked_witness :
    GetWeather true ⟨[(weatherKey 1 2, some ⟨1, 2, "Old Sunny", 20, 68, 0⟩)], []⟩
        1 2 100 (.error ("x")) 100 =
      ⟨.ok (classifyResponse ⟨1, 2, "Old Sunny", 20, 68, 0⟩),
       ⟨[(weatherKey 1 2, some ⟨1, 2, "Old Sunny", 20, 68, 0⟩)], []⟩, false⟩ ∧
    (GetWeather true ⟨[(weatherKey 1 2, some ⟨1, 2, "Old Sunny", 20, 68, 0⟩)], []⟩
        1 2 7200 (.error ("x")) 7200).upstreamCalled = true :=
  ⟨(C2_fast_hit_rechecked ⟨[(weatherKey 1 2, some ⟨1, 2, "Old Sunny", 20, 68, 0⟩)], []⟩
      1 2 100 100 (.error ("x")) ⟨1, 2, "Old Sunny", 20, 68, 0⟩ (by decide)).1 (by decide),
   (C2_fast_hit_rechecked ⟨[(weatherKey 1 2, some ⟨1, 2, "Old Sunny", 20, 68, 0⟩)], []⟩
      1 2 7200 7200 (.error ("x")) ⟨1, 2, "Old Sunny", 20, 68, 0⟩ (by decide)).2 (by decide)⟩

/-- C3: on a fast-cache miss with a fresh durable row, `GetWeather` returns
that row classified, does not call the upstream provider, and leaves the whole
cache state — in particular the fast cache — unchanged. -/
theorem C3_fresh_durable_no_upstream_no_repopulate (hasRdb : Bool) (st : CacheState)
    (lat lon : ℚ) (now dbNow : ℤ) (fetch : Except String (List NWSPeriod)) (row : DbRow)
    (hmiss : fastHit hasRdb st.redis lat lon = none)
    (hrow : dbQueryLatest st.dbRows lat lon = some row)
    (hfresh : now - row.timestamp < 3600) :
    GetWeather hasRdb st lat lon now fetch dbNow =
      ⟨.ok (classifyResponse
          ⟨lat, lon, row.forecast, row.temp_c, row.temp_f, row.timestamp⟩),
        st, false⟩ := by
  have hc : GetFromCache hasRdb st lat lon =
      some ⟨lat, lon, row.forecast, row.temp_c, row.temp_f, row.timestamp⟩ := by
    simp [GetFromCache, hmiss, hrow]
  have hf : IsCacheFresh now
      ⟨lat, lon, row.forecast, row.temp_c, row.temp_f, row.timestamp⟩ = true := by
    simpa [IsCacheFresh] using hfresh
  simp [GetWeather, hc, hf]

/-- Witness for C3: an empty fast cache plus a durable row 100 seconds old. -/
theorem C3_fresh_durable_no_upstream_no_repopulate_witness :
    GetWeather true ⟨[], [⟨0, 1, 2, "Cloudy", 12, 53, 0⟩]⟩ 1 2 100 (.error ("down")) 100 =
      ⟨.ok (classifyResponse ⟨1, 2, "Cloudy", 12, 53, 0⟩),
        ⟨[], [⟨0, 1, 2, "Cloudy", 12, 53, 0⟩]⟩, false⟩ :=
  C3_fresh_durable_no_upstream_no_repopulate true ⟨[], [⟨0, 1, 2, "Cloudy", 12, 53, 0⟩]⟩
    1 2 100 100 (.error ("down")) ⟨0, 1, 2, "Cloudy", 12, 53, 0⟩
    (by decide) (by decide) (by decide)

/-- C4: `SaveToCache` writes the durable store by an unconditional insert —
the previous rows are preserved verbatim as a prefix and exactly one row is
appended — and a durable read selects, among the rows whose latitude and
longitude exactly equal the key, a stored row of maximal timestamp. -/
theorem C4_unconditional_insert_and_most_recent_read (hasRdb : Bool)
    (st : CacheState) (w : WeatherCache) (dbNow : ℤ) :
    ((SaveToCache hasRdb st w dbNow).dbRows = st.dbRows ++
      [⟨st.dbRows.length, w.latitude, w.longitude, w.forecast, w.tempC, w.tempF, dbNow⟩]) ∧
    (∀ rows lat lon r, dbQueryLatest rows lat lon = some r →
      r ∈ rows ∧ r.latitude = lat ∧ r.longitude = lon ∧
      ∀ r' ∈ rows, r'.latitude = lat → r'.longitude = lon →
        r'.timestamp ≤ r.timestamp) :=
  ⟨rfl, fun rows lat lon r h => dbQueryLatest_spec rows lat lon r h⟩

/-- Witness for C4 on a two-row table: the read picks the more recent matching
row and it satisfies the selection property. -/
theorem C4_unconditional_insert_and_most_recent_read_witness :
    (⟨7, 1, 2, "Later", 15, 59, 50⟩ : DbRow) ∈
        [⟨0, 1, 2, "Early", 11, 52, 10⟩, ⟨7, 1, 2, "Later", 15, 59, 50⟩] ∧
      (⟨7, 1, 2, "Later", 15, 59, 50⟩ : DbRow).latitude = 1 ∧
      (⟨7, 1, 2, "Later", 15, 59, 50⟩ : DbRow).longitude = 2 ∧
      ∀ r' ∈ [(⟨0, 1, 2, "Early", 11, 52, 10⟩ : DbRow), ⟨7, 1, 2, "Later", 15, 59, 50⟩],
        r'.latitude = 1 → r'.longitude = 2 →
        r'.timestamp ≤ (⟨7, 1, 2, "Later", 15, 59, 50⟩ : DbRow).timestamp :=
  (C4_unconditional_insert_and_most_recent_read true ⟨[], []⟩
      ⟨1, 2, "x", 0, 0, 0⟩ 0).2
    [⟨0, 1, 2, "Early", 11, 52, 10⟩, ⟨7, 1, 2, "Later", 15, 59, 50⟩] 1 2
    ⟨7, 1, 2, "Later", 15, 59, 50⟩ (by decide)

/-- C5 counterexample: the latitudes 1/10000000 and 1/5000000 render
identically at 6-decimal precision (same cache key) yet are distinct raw
values; a forecast saved under the first is NOT found by a durable-layer read
under the second, though it is found under the first — so the two coordinates
do not address one single entry in each cache layer. -/
theorem C5_counterexample :
    weatherKey (Rat.divInt 1 10000000) 0 = weatherKey (Rat.divInt 1 5000000) 0 ∧
    Rat.divInt 1 10000000 ≠ Rat.divInt 1 5000000 ∧
    GetFromCache false
      (SaveToCache false ⟨[], []⟩ ⟨Rat.divInt 1 10000000, 0, "Sunny", 20, 68, 0⟩ 50)
      (Rat.divInt 1 5000000) 0 = none ∧
    GetFromCache false
      (SaveToCache false ⟨[], []⟩ ⟨Rat.divInt 1 10000000, 0, "Sunny", 20, 68, 0⟩ 50)
      (Rat.divInt 1 10000000) 0 =
      some ⟨Rat.divInt 1 10000000, 0, "Sunny", 20, 68, 50⟩ :=
  ⟨by decide, by decide, by decide, by decide⟩

/-- C5 amended: only the FAST layer keys entries by the fixed 6-decimal
rendering: for any two coordinate pairs whose rendered keys coincide, a
forecast saved under one is returned by a fast-layer `Get` of the other.  The
durable layer matches stored raw coordinates by exact equality, so such a
pair need not share a durable row (see the counterexample). -/
theorem C5_fast_layer_six_decimal_collision (st : CacheState) (w : WeatherCache)
    (lat' lon' : ℚ) (dbNow : ℤ)
    (hkey : weatherKey lat' lon' = weatherKey w.latitude w.longitude) :
    GetFromCache true (SaveToCache true st w dbNow) lat' lon' = some w := by
  have hget : redisGet (redisSet st.redis (weatherKey w.latitude w.longitude) w)
      (weatherKey lat' lon') = some (some w) := by
    rw [hkey]
    exact redisGet_set_self _ _ _
  simp [GetFromCache, fastHit, SaveToCache, hget]

/-- Witness for C5 amended: saving under latitude 1/10000000 and reading the
fast layer under latitude 1/5000000 returns the saved forecast. -/
theorem C5_fast_layer_six_decimal_collision_witness :
    GetFromCache true
      (SaveToCache true ⟨[], []⟩ ⟨Rat.divInt 1 10000000, 0, "Sunny", 20, 68, 0⟩ 50)
      (Rat.divInt 1 5000000) 0 =
      some ⟨Rat.divInt 1 10000000, 0, "Sunny", 20, 68, 0⟩ :=
  C5_fast_layer_six_decimal_collision ⟨[], []⟩
    ⟨Rat.divInt 1 10000000, 0, "Sunny", 20, 68, 0⟩ (Rat.divInt 1 5000000) 0 50
    (by decide)

/-- C7 counterexample: when the durable store cannot be initialized, `main`
terminates startup with `log.Fatalf` instead of yielding a usable always-miss
instance — the service does not start. -/
theorem C7_counterexample :
    runMain true (.error ("unable to open database file")) =
      .fatalExit ("Failed to initialize database: unable to open database file") ∧
    runMain true (.error ("unable to open database file")) ≠ .started true ∧
    runMain true (.error ("unable to open database file")) ≠ .started false :=
  ⟨rfl, by decide, by decide⟩

/-- C7 amended: only the FAST cache layer tolerates its store being
unavailable: a failed Redis ping yields a nil client, the service still starts
(degraded), and with a nil client the fast layer always misses; a durable
store initialization failure, by contrast, terminates startup fatally. -/
theorem C7_fast_layer_only_tolerates_unavailability :
    (∀ pingOk : Bool, runMain pingOk (.ok ()) = .started (initRedis pingOk)) ∧
    (∀ (st : RedisState) (lat lon : ℚ), fastHit false st lat lon = none) ∧
    (∀ (e : String) (pingOk : Bool),
      runMain pingOk (.error e) = .fatalExit ("Failed to initialize database: " ++ e)) :=
  ⟨fun _ => rfl, fun _ _ _ => rfl, fun _ _ => rfl⟩

/-- C8: after `SaveToCache`, reading the key back yields the written forecast
text and both temperature fields, whether the read is served by the fast layer
(which returns the entry verbatim) or by the durable layer (provided the new
row's insertion timestamp is at least those of the rows already stored, so the
most-recent-row selection picks it). -/
theorem C8_roundtrip_fidelity (st : CacheState) (w : WeatherCache) (dbNow : ℤ)
    (hle : ∀ r ∈ st.dbRows, r.timestamp ≤ dbNow) :
    (GetFromCache true (SaveToCache true st w dbNow) w.latitude w.longitude = some w) ∧
    (∃ c, GetFromCache false (SaveToCache false st w dbNow) w.latitude w.longitude =
        some c ∧
      c.forecast = w.forecast ∧ c.tempC = w.tempC ∧ c.tempF = w.tempF) := by
  constructor
  · have hget : redisGet (redisSet st.redis (weatherKey w.latitude w.longitude) w)
        (weatherKey w.latitude w.longitude) = some (some w) :=
      redisGet_set_self _ _ _
    simp [GetFromCache, fastHit, SaveToCache, hget]
  · refine ⟨⟨w.latitude, w.longitude, w.forecast, w.tempC, w.tempF, dbNow⟩, ?_, rfl, rfl, rfl⟩
    have hq := dbQueryLatest_insert_self st.dbRows w dbNow hle
    simp [GetFromCache, fastHit, SaveToCache, hq]

/-- Witness for C8 on a one-row table whose existing row is older than the
insertion time. -/
theorem C8_roundtrip_fidelity_witness :
    (GetFromCache true
        (SaveToCache true ⟨[], [⟨0, 1, 2, "Old", 1, 33, 10⟩]⟩ ⟨1, 2, "Fresh", 20, 68, 49⟩ 50)
        1 2 = some ⟨1, 2, "Fresh", 20, 68, 49⟩) ∧
    (∃ c, GetFromCache false
        (SaveToCache false ⟨[], [⟨0, 1, 2, "Old", 1, 33, 10⟩]⟩ ⟨1, 2, "Fresh", 20, 68, 49⟩ 50)
        1 2 = some c ∧
      c.forecast = "Fresh" ∧ c.tempC = 20 ∧ c.tempF = 68) :=
  C8_roundtrip_fidelity ⟨[], [⟨0, 1, 2, "Old", 1, 33, 10⟩]⟩ ⟨1, 2, "Fresh", 20, 68, 49⟩ 50
    (by decide)

/-- C10: the durable insert of `SaveToCache` omits the capture timestamp: the
appended row records the database's own insertion time `dbNow`, and the rows
written are identical whatever `w.timestamp` was; only the fast-cache copy
retains the capture timestamp (the stored entry is `w` itself); and a
durable-served read after the save yields a value whose timestamp is `dbNow`,
so its freshness check measures age since insertion. -/
theorem C10_durable_insert_drops_capture_timestamp (hasRdb : Bool) (st : CacheState)
    (w : WeatherCache) (dbNow : ℤ) :
    ((SaveToCache hasRdb st w dbNow).dbRows = st.dbRows ++
      [⟨st.dbRows.length, w.latitude, w.longitude, w.forecast, w.tempC, w.tempF, dbNow⟩]) ∧
    (∀ t : ℤ, (SaveToCache hasRdb st { w with timestamp := t } dbNow).dbRows =
      (SaveToCache hasRdb st w dbNow).dbRows) ∧
    (redisGet (SaveToCache true st w dbNow).redis (weatherKey w.latitude w.longitude) =
      some (some w)) ∧
    (∀ now : ℤ, (∀ r ∈ st.dbRows, r.timestamp ≤ dbNow) →
      ∃ c, GetFromCache false (SaveToCache false st w dbNow) w.latitude w.longitude =
          some c ∧
        c.timestamp = dbNow ∧
        IsCacheFresh now c = decide (now - dbNow < 3600)) := by
  refine ⟨rfl, fun t => rfl, redisGet_set_self _ _ _, ?_⟩
  intro now hle
  refine ⟨⟨w.latitude, w.longitude, w.forecast, w.tempC, w.tempF, dbNow⟩, ?_, rfl, rfl⟩
  have hq := dbQueryLatest_insert_self st.dbRows w dbNow hle
  simp [GetFromCache, fastHit, SaveToCache, hq]

/-- Witness for C10: saving with capture timestamp 49 at insertion time 50
stores a durable row timestamped 50, read back as such. -/
theorem C10_durable_insert_drops_capture_timestamp_witness :
    ∃ c, GetFromCache false
        (SaveToCache false ⟨[], []⟩ ⟨1, 2, "Fresh", 20, 68, 49⟩ 50) 1 2 = some c ∧
      c.timestamp = 50 ∧
      IsCacheFresh 4000 c = decide ((4000 : ℤ) - 50 < 3600) :=
  (C10_durable_insert_drops_capture_timestamp false ⟨[], []⟩
    ⟨1, 2, "Fresh", 20, 68, 49⟩ 50).2.2.2 4000 (by decide)

end WeatherApi
